import Mathlib

/-!
Formal model of the pabnes 6502 CPU core (`src/cpu.rs`, `src/opcodes.rs`),
as a shallow embedding: machine bytes and words are `Nat` with explicit
`% 256` / `% 65536` where the Rust code relies on fixed-width wrapping,
memory is a total function `Nat → Nat`, and the fetch-decode-execute loop
is a fuel-indexed step function.
-/

namespace Pabnes

/-! ### Status flags (`bitflags! CpuFlags` in cpu.rs) -/

def CARRY : Nat := 0x01
def ZERO : Nat := 0x02
def INTERRUPT_DISABLE : Nat := 0x04
def DECIMAL_MODE : Nat := 0x08
def BREAK : Nat := 0x10
def BREAK2 : Nat := 0x20
def OVERFLOW : Nat := 0x40
def NEGATIVE : Nat := 0x80

/-- `bitflags` `contains`: all bits of `fl` are set in `st`. -/
def containsFlag (st fl : Nat) : Bool := (st &&& fl) == fl

/-- `bitflags` `insert`. -/
def insertFlag (st fl : Nat) : Nat := st ||| fl

/-- `bitflags` `remove` on a `u8` carrier: clear the bits of `fl`. -/
def removeFlag (st fl : Nat) : Nat := st &&& (0xFF ^^^ fl)

/-- `bitflags` `set`. -/
def setFlag (st fl : Nat) (b : Bool) : Nat :=
  if b then insertFlag st fl else removeFlag st fl

def STACK : Nat := 0x0010
def STACK_RESET : Nat := 0xFD

/-! ### CPU state -/

structure CPU where
  reg_a : Nat
  reg_x : Nat
  reg_y : Nat
  status : Nat
  pc : Nat
  sp : Nat
  memory : Nat → Nat

inductive AddressingMode where
  | Immediate
  | ZeroPage
  | ZeroPageX
  | ZeroPageY
  | Absolute
  | AbsoluteX
  | AbsoluteY
  | IndirectX
  | IndirectY
  | NoneAddressing
deriving DecidableEq

/-! ### Wrapping helpers (`u8` / `u16` arithmetic) -/

def wrapping_add8 (a b : Nat) : Nat := (a + b) % 256

def wrapping_sub8 (a b : Nat) : Nat := (a + 256 - b % 256) % 256

/-- Bit pattern of `(x as i8).wrapping_neg()`. -/
def wrapping_neg8 (a : Nat) : Nat := (256 - a % 256) % 256

def wrapping_add16 (a b : Nat) : Nat := (a + b) % 65536

/-! ### Memory primitives (trait `Mem` in cpu.rs) -/

def mem_read (c : CPU) (addr : Nat) : Nat := c.memory addr

def mem_write (c : CPU) (addr data : Nat) : CPU :=
  { c with memory := fun a => if a = addr then data else c.memory a }

/-- `mem_read_u16`: low byte at `pos`, high byte at `pos + 1`. -/
def mem_read_u16 (c : CPU) (pos : Nat) : Nat :=
  let low := mem_read c pos
  let high := mem_read c (pos + 1)
  (high <<< 8) ||| low

/-- `mem_write_u16`: low byte to `pos`, high byte to `pos + 1`. -/
def mem_write_u16 (c : CPU) (pos data : Nat) : CPU :=
  let low := data &&& 0x00FF
  let high := data >>> 8
  mem_write (mem_write c pos low) (pos + 1) high

/-! ### Bit-level bridging lemmas -/

lemma shiftLeft8_or_eq (hi lo : Nat) (h : lo < 256) :
    (hi <<< 8) ||| lo = 256 * hi + lo := by
  have h1 : hi <<< 8 = 2 ^ 8 * hi := by
    rw [Nat.shiftLeft_eq, Nat.mul_comm]
  have h2 : lo < 2 ^ 8 := by
    have e : (2 : Nat) ^ 8 = 256 := by norm_num
    omega
  rw [h1, ← Nat.mul_add_lt_is_or h2 hi]

lemma and_ff_eq_mod (p : Nat) : p &&& 0xFF = p % 256 := by
  have h : (0xFF : Nat) = 2 ^ 8 - 1 := by norm_num
  rw [h, Nat.and_pow_two_sub_one_eq_mod]

lemma and_ff00_eq (p : Nat) (hp : p < 65536) :
    p &&& 0xFF00 = 256 * (p / 256) := by
  have hm : (0xFF00 : Nat) = 0xFF <<< 8 := by decide
  have hdiv : p / 256 = p >>> 8 := by
    rw [Nat.shiftRight_eq_div_pow]
  have h256 : 256 * (p / 256) = (p / 256) <<< 8 := by
    rw [Nat.shiftLeft_eq]
    ring
  apply Nat.eq_of_testBit_eq
  intro j
  rw [hm, h256, hdiv, Nat.testBit_and, Nat.testBit_shiftLeft, Nat.testBit_shiftLeft,
    Nat.testBit_shiftRight]
  by_cases hj : 8 ≤ j
  · have hFF : ∀ k, Nat.testBit 0xFF k = decide (k < 8) := by
      intro k
      have : (0xFF : Nat) = 2 ^ 8 - 1 := by norm_num
      rw [this, Nat.testBit_two_pow_sub_one]
    rw [hFF]
    by_cases hj16 : j < 16
    · have : 8 + (j - 8) = j := by omega
      simp [hj, this, show j - 8 < 8 by omega]
    · have hbig : Nat.testBit p j = false := by
        apply Nat.testBit_lt_two_pow
        calc p < 65536 := hp
          _ = 2 ^ 16 := by norm_num
          _ ≤ 2 ^ j := Nat.pow_le_pow_right (by norm_num) (by omega)
      simp [hj, hbig, show ¬(j - 8 < 8) by omega]
  · simp [hj]

lemma containsFlag_pow (st m i : Nat) (h : m = 2 ^ i) :
    containsFlag st m = st.testBit i := by
  subst h
  unfold containsFlag
  rw [Nat.and_two_pow]
  cases hb : st.testBit i
  · simp
    exact (Nat.two_pow_pos i).ne
  · simp

lemma containsFlag_CARRY (st : Nat) : containsFlag st CARRY = st.testBit 0 :=
  containsFlag_pow st CARRY 0 (by norm_num [CARRY])

lemma containsFlag_ZERO (st : Nat) : containsFlag st ZERO = st.testBit 1 :=
  containsFlag_pow st ZERO 1 (by norm_num [ZERO])

lemma containsFlag_OVERFLOW (st : Nat) : containsFlag st OVERFLOW = st.testBit 6 :=
  containsFlag_pow st OVERFLOW 6 (by norm_num [OVERFLOW])

lemma containsFlag_NEGATIVE (st : Nat) : containsFlag st NEGATIVE = st.testBit 7 :=
  containsFlag_pow st NEGATIVE 7 (by norm_num [NEGATIVE])

lemma testBit_insertFlag (st m j : Nat) :
    (insertFlag st m).testBit j = (st.testBit j || m.testBit j) := by
  simp [insertFlag]

lemma testBit_removeFlag (st m j : Nat) :
    (removeFlag st m).testBit j = (st.testBit j && (0xFF ^^^ m).testBit j) := by
  simp [removeFlag]

lemma and_80_ne_zero (v : Nat) : (v &&& 0x80 ≠ 0) ↔ v.testBit 7 = true := by
  have h : (0x80 : Nat) = 2 ^ 7 := by norm_num
  rw [h, Nat.and_two_pow]
  cases hb : v.testBit 7 <;> simp [hb]

/-! ### Flag / register helpers (cpu.rs) -/

/-- `update_zero_and_negative_flags`: Zero from `result == 0`,
Negative from `result & 0b1000_0000 != 0`. -/
def update_zero_and_negative_flags (c : CPU) (result : Nat) : CPU :=
  let c1 :=
    if result = 0 then { c with status := insertFlag c.status ZERO }
    else { c with status := removeFlag c.status ZERO }
  if result &&& 0x80 ≠ 0 then { c1 with status := insertFlag c1.status NEGATIVE }
  else { c1 with status := removeFlag c1.status NEGATIVE }

/-- `set_register_a`: store into the accumulator and update Zero/Negative. -/
def set_register_a (c : CPU) (value : Nat) : CPU :=
  update_zero_and_negative_flags { c with reg_a := value } value

def set_carry_flag (c : CPU) : CPU := { c with status := insertFlag c.status CARRY }

def clear_carry_flag (c : CPU) : CPU := { c with status := removeFlag c.status CARRY }

/-- `add_to_register_a`: the shared ADC/SBC core. The sum is computed in a
wider integer (`u16` in the source; plain `Nat` here), Carry is unsigned
overflow past `0xFF`, Overflow is the `(data ^ result) & (result ^ a) & 0x80`
bit test, and the truncated result goes through `set_register_a`. -/
def add_to_register_a (c : CPU) (data : Nat) : CPU :=
  let sum := c.reg_a + data + (if containsFlag c.status CARRY then 1 else 0)
  let c1 :=
    if 0xFF < sum then { c with status := insertFlag c.status CARRY }
    else { c with status := removeFlag c.status CARRY }
  let result := sum % 256
  let c2 :=
    if (data ^^^ result) &&& (result ^^^ c.reg_a) &&& 0x80 ≠ 0 then
      { c1 with status := insertFlag c1.status OVERFLOW }
    else { c1 with status := removeFlag c1.status OVERFLOW }
  set_register_a c2 result

/-! ### Addressing resolver (`get_operand_address`) -/

/-- `get_operand_address`. `NoneAddressing` panics in the source; that is
modelled as `none`. -/
def get_operand_address (c : CPU) (mode : AddressingMode) : Option Nat :=
  match mode with
  | .Immediate => some c.pc
  | .ZeroPage => some (mem_read c c.pc)
  | .Absolute => some (mem_read_u16 c c.pc)
  | .ZeroPageX => some (wrapping_add8 (mem_read c c.pc) c.reg_x)
  | .ZeroPageY => some (wrapping_add8 (mem_read c c.pc) c.reg_y)
  | .AbsoluteX => some (wrapping_add16 (mem_read_u16 c c.pc) c.reg_x)
  | .AbsoluteY => some (wrapping_add16 (mem_read_u16 c c.pc) c.reg_y)
  | .IndirectX =>
    let base := mem_read c c.pc
    let ptr := wrapping_add8 base c.reg_x
    let hi := mem_read c ptr
    let lo := mem_read c (wrapping_add8 ptr 1)
    some ((hi <<< 8) ||| lo)
  | .IndirectY =>
    let base := mem_read c c.pc
    let lo := mem_read c base
    let hi := mem_read c (wrapping_add8 base 1)
    let deref_base := (hi <<< 8) ||| lo
    some (wrapping_add16 deref_base c.reg_y)
  | .NoneAddressing => none

/-! ### Stack helpers -/

def stack_pop (c : CPU) : CPU × Nat :=
  let c1 := { c with sp := wrapping_add8 c.sp 1 }
  (c1, mem_read c1 (STACK + c1.sp))

def stack_push (c : CPU) (data : Nat) : CPU :=
  let c1 := mem_write c (STACK + c.sp) data
  { c1 with sp := wrapping_sub8 c1.sp 1 }

def stack_push_u16 (c : CPU) (data : Nat) : CPU :=
  let hi := (data >>> 8) % 256
  let lo := data &&& 0xFF
  stack_push (stack_push c hi) lo

def stack_pop_u16 (c : CPU) : CPU × Nat :=
  let (c1, lo) := stack_pop c
  let (c2, hi) := stack_pop c1
  (c2, (hi <<< 8) ||| lo)

/-! ### Instruction handlers -/

def lda (c : CPU) (mode : AddressingMode) : Option CPU :=
  (get_operand_address c mode).map fun addr =>
    let data := mem_read c addr
    update_zero_and_negative_flags { c with reg_a := data } data

def ldx (c : CPU) (mode : AddressingMode) : Option CPU :=
  (get_operand_address c mode).map fun addr =>
    let data := mem_read c addr
    update_zero_and_negative_flags { c with reg_x := data } data

def ldy (c : CPU) (mode : AddressingMode) : Option CPU :=
  (get_operand_address c mode).map fun addr =>
    let data := mem_read c addr
    update_zero_and_negative_flags { c with reg_y := data } data

def sta (c : CPU) (mode : AddressingMode) : Option CPU :=
  (get_operand_address c mode).map fun addr => mem_write c addr c.reg_a

def stx (c : CPU) (mode : AddressingMode) : Option CPU :=
  (get_operand_address c mode).map fun addr => mem_write c addr c.reg_x

def sty (c : CPU) (mode : AddressingMode) : Option CPU :=
  (get_operand_address c mode).map fun addr => mem_write c addr c.reg_y

def andIns (c : CPU) (mode : AddressingMode) : Option CPU :=
  (get_operand_address c mode).map fun addr =>
    set_register_a c (mem_read c addr &&& c.reg_a)

def eor (c : CPU) (mode : AddressingMode) : Option CPU :=
  (get_operand_address c mode).map fun addr =>
    set_register_a c (mem_read c addr ^^^ c.reg_a)

def ora (c : CPU) (mode : AddressingMode) : Option CPU :=
  (get_operand_address c mode).map fun addr =>
    set_register_a c (mem_read c addr ||| c.reg_a)

def tax (c : CPU) : CPU :=
  update_zero_and_negative_flags { c with reg_x := c.reg_a } c.reg_a

def inx (c : CPU) : CPU :=
  let x := wrapping_add8 c.reg_x 1
  update_zero_and_negative_flags { c with reg_x := x } x

def iny (c : CPU) : CPU :=
  let y := wrapping_add8 c.reg_y 1
  update_zero_and_negative_flags { c with reg_y := y } y

def dex (c : CPU) : CPU :=
  let x := wrapping_sub8 c.reg_x 1
  update_zero_and_negative_flags { c with reg_x := x } x

def dey (c : CPU) : CPU :=
  let y := wrapping_sub8 c.reg_y 1
  update_zero_and_negative_flags { c with reg_y := y } y

def adc (c : CPU) (mode : AddressingMode) : Option CPU :=
  (get_operand_address c mode).map fun addr =>
    add_to_register_a c (mem_read c addr)

/-- SBC: `((data as i8).wrapping_neg().wrapping_sub(1)) as u8` fed to the
ADC core. -/
def sbc (c : CPU) (mode : AddressingMode) : Option CPU :=
  (get_operand_address c mode).map fun addr =>
    add_to_register_a c (wrapping_sub8 (wrapping_neg8 (mem_read c addr)) 1)

def inc (c : CPU) (mode : AddressingMode) : Option CPU :=
  (get_operand_address c mode).map fun addr =>
    let data := wrapping_add8 (mem_read c addr) 1
    update_zero_and_negative_flags (mem_write c addr data) data

def dec (c : CPU) (mode : AddressingMode) : Option CPU :=
  (get_operand_address c mode).map fun addr =>
    let data := wrapping_sub8 (mem_read c addr) 1
    update_zero_and_negative_flags (mem_write c addr data) data

def pla (c : CPU) : CPU :=
  let (c1, data) := stack_pop c
  set_register_a c1 data

def plp (c : CPU) : CPU :=
  let (c1, data) := stack_pop c
  { c1 with status := insertFlag (removeFlag data BREAK) BREAK2 }

def php (c : CPU) : CPU :=
  stack_push c (insertFlag (insertFlag c.status BREAK) BREAK2)

def bit (c : CPU) (mode : AddressingMode) : Option CPU :=
  (get_operand_address c mode).map fun addr =>
    let data := mem_read c addr
    let c1 :=
      if c.reg_a &&& data = 0 then { c with status := insertFlag c.status ZERO }
      else { c with status := removeFlag c.status ZERO }
    let c2 := { c1 with status := setFlag c1.status NEGATIVE (0 < data &&& 0x80) }
    { c2 with status := setFlag c2.status OVERFLOW (0 < data &&& 0x40) }

/-- `compare`: shared CMP/CPX/CPY core. Carry from `data <= compare_with`,
Zero/Negative from `compare_with.wrapping_sub(data)`. -/
def compare (c : CPU) (mode : AddressingMode) (compare_with : Nat) : Option CPU :=
  (get_operand_address c mode).map fun addr =>
    let data := mem_read c addr
    let c1 :=
      if data ≤ compare_with then { c with status := insertFlag c.status CARRY }
      else { c with status := removeFlag c.status CARRY }
    update_zero_and_negative_flags c1 (wrapping_sub8 compare_with data)

/-- `branch`: take a signed 8-bit offset from the byte at `pc` and add it to
`pc + 1` (`jump as u16` sign-extends the offset). -/
def branch (c : CPU) (condition : Bool) : CPU :=
  if condition then
    let jump := mem_read c c.pc
    let ext := if jump % 256 < 128 then jump % 256 else 0xFF00 + jump % 256
    { c with pc := wrapping_add16 (wrapping_add16 c.pc 1) ext }
  else c

def asl_accumulator (c : CPU) : CPU :=
  let data := c.reg_a
  let c1 := if data >>> 7 = 1 then set_carry_flag c else clear_carry_flag c
  set_register_a c1 ((data <<< 1) % 256)

def asl (c : CPU) (mode : AddressingMode) : Option CPU :=
  (get_operand_address c mode).map fun addr =>
    let data := mem_read c addr
    let c1 := if data >>> 7 = 1 then set_carry_flag c else clear_carry_flag c
    let data2 := (data <<< 1) % 256
    update_zero_and_negative_flags (mem_write c1 addr data2) data2

def lsr_accumulator (c : CPU) : CPU :=
  let data := c.reg_a
  let c1 := if data &&& 1 = 1 then set_carry_flag c else clear_carry_flag c
  set_register_a c1 (data >>> 1)

def lsr (c : CPU) (mode : AddressingMode) : Option CPU :=
  (get_operand_address c mode).map fun addr =>
    let data := mem_read c addr
    let c1 := if data &&& 1 = 1 then set_carry_flag c else clear_carry_flag c
    let data2 := data >>> 1
    update_zero_and_negative_flags (mem_write c1 addr data2) data2

def rol_accumulator (c : CPU) : CPU :=
  let data := c.reg_a
  let old_carry := containsFlag c.status CARRY
  let c1 := if data >>> 7 = 1 then set_carry_flag c else clear_carry_flag c
  let data2 := (data <<< 1) % 256
  let data3 := if old_carry then data2 ||| 1 else data2
  set_register_a c1 data3

def rol (c : CPU) (mode : AddressingMode) : Option CPU :=
  (get_operand_address c mode).map fun addr =>
    let data := mem_read c addr
    let old_carry := containsFlag c.status CARRY
    let c1 := if data >>> 7 = 1 then set_carry_flag c else clear_carry_flag c
    let data2 := (data <<< 1) % 256
    let data3 := if old_carry then data2 ||| 1 else data2
    update_zero_and_negative_flags (mem_write c1 addr data3) data3

def ror_accumulator (c : CPU) : CPU :=
  let data := c.reg_a
  let old_carry := containsFlag c.status CARRY
  let c1 := if data &&& 1 = 1 then set_carry_flag c else clear_carry_flag c
  let data2 := data >>> 1
  let data3 := if old_carry then data2 ||| 0x80 else data2
  set_register_a c1 data3

def ror (c : CPU) (mode : AddressingMode) : Option CPU :=
  (get_operand_address c mode).map fun addr =>
    let data := mem_read c addr
    let old_carry := containsFlag c.status CARRY
    let c1 := if data &&& 1 = 1 then set_carry_flag c else clear_carry_flag c
    let data2 := data >>> 1
    let data3 := if old_carry then data2 ||| 0x80 else data2
    update_zero_and_negative_flags (mem_write c1 addr data3) data3

/-- The `JMP Indirect` (opcode 0x6C) arm of the dispatch loop: reads the
16-bit pointer at `pc`, and when the pointer's low byte is `0xFF` the high
byte of the target is read from the start of the pointer's own page
(`mem_address & 0xFF00`) instead of the next page. -/
def jmp_indirect_target (c : CPU) : Nat :=
  let mem_address := mem_read_u16 c c.pc
  if mem_address &&& 0x00FF = 0x00FF then
    let lo := mem_read c mem_address
    let hi := mem_read c (mem_address &&& 0xFF00)
    (hi <<< 8) ||| lo
  else
    mem_read_u16 c mem_address

/-! ### Instruction metadata -/

/-- One instruction descriptor: the engine consumes only the total byte
length and the addressing mode. -/
structure OpCode where
  len : Nat
  mode : AddressingMode
deriving DecidableEq

/-- Modelled from the spec: the opcode metadata table `OPCODES_MAP` that
`run_with_callback` consumes is missing from `src/src/opcodes.rs` (the file
holds only a placeholder), so it is reconstructed from the spec's
description — a read-only mapping from opcode byte to descriptor whose
`length` is the instruction's total byte count (1 plus the addressing
mode's operand bytes) and whose addressing mode matches the handler each
opcode is dispatched to; its domain is the opcode set the execution engine
dispatches, and a byte outside it has no entry. -/
def OPCODES_MAP (code : Nat) : Option OpCode :=
  match code with
  | 0xA9 | 0x69 | 0xE9 | 0x29 | 0x49 | 0x09 | 0xC9 | 0xC0 | 0xE0 | 0xA2
  | 0xA0 => some ⟨2, .Immediate⟩
  | 0xA5 | 0x65 | 0xE5 | 0x25 | 0x45 | 0x05 | 0x46 | 0x06 | 0x26 | 0x66
  | 0xE6 | 0xC6 | 0xC5 | 0xC4 | 0xE4 | 0x24 | 0x85 | 0x86 | 0x84 | 0xA6
  | 0xA4 => some ⟨2, .ZeroPage⟩
  | 0xB5 | 0x75 | 0xF5 | 0x35 | 0x55 | 0x15 | 0x56 | 0x16 | 0x36 | 0x76
  | 0xF6 | 0xD6 | 0xD5 | 0x95 | 0x94 | 0xB4 => some ⟨2, .ZeroPageX⟩
  | 0x96 | 0xB6 => some ⟨2, .ZeroPageY⟩
  | 0xAD | 0x6D | 0xED | 0x2D | 0x4D | 0x0D | 0x4E | 0x0E | 0x2E | 0x6E
  | 0xEE | 0xCE | 0xCD | 0xCC | 0xEC | 0x2C | 0x8D | 0x8E | 0x8C | 0xAE
  | 0xAC => some ⟨3, .Absolute⟩
  | 0xBD | 0x7D | 0xFD | 0x3D | 0x5D | 0x1D | 0x5E | 0x1E | 0x3E | 0x7E
  | 0xFE | 0xDE | 0xDD | 0x9D | 0xBC => some ⟨3, .AbsoluteX⟩
  | 0xB9 | 0x79 | 0xF9 | 0x39 | 0x59 | 0x19 | 0xD9 | 0x99
  | 0xBE => some ⟨3, .AbsoluteY⟩
  | 0xA1 | 0x61 | 0xE1 | 0x21 | 0x41 | 0x01 | 0xC1 | 0x81 => some ⟨2, .IndirectX⟩
  | 0xB1 | 0x71 | 0xF1 | 0x31 | 0x51 | 0x11 | 0xD1 | 0x91 => some ⟨2, .IndirectY⟩
  | 0x00 | 0xAA | 0xE8 | 0xD8 | 0x58 | 0xB8 | 0x18 | 0x38 | 0x78 | 0xF8
  | 0x48 | 0x68 | 0x08 | 0x28 | 0x4A | 0x0A | 0x2A | 0x6A | 0xC8 | 0xCA
  | 0x88 | 0x60 | 0x40 | 0xEA | 0xA8 | 0xBA | 0x8A | 0x9A
  | 0x98 => some ⟨1, .NoneAddressing⟩
  | 0xD0 | 0x70 | 0x50 | 0x10 | 0x30 | 0xF0 | 0xB0
  | 0x90 => some ⟨2, .NoneAddressing⟩
  | 0x4C | 0x6C | 0x20 => some ⟨3, .NoneAddressing⟩
  | _ => none

/-! ### The fetch-decode-execute loop (`run_with_callback`) -/

inductive CpuError where
  | unrecognizedOpcode (code : Nat)
  | unsupportedMode
  | notImplemented
deriving DecidableEq

inductive StepResult where
  | next (c : CPU)
  | halt (c : CPU)
  | fatal (e : CpuError)

/-- Lift a resolver-using handler: `None` models the
`NoneAddressing` panic in `get_operand_address`. -/
def ofHandler : Option CPU → StepResult
  | some c => .next c
  | none => .fatal .unsupportedMode

/-- The opcode dispatch `match` of `run_with_callback`, acting on the state
after the opcode fetch and `pc` increment. -/
def dispatch (code : Nat) (mode : AddressingMode) (c : CPU) : StepResult :=
  match code with
  | 0xA9 | 0xA5 | 0xB5 | 0xAD | 0xBD | 0xB9 | 0xA1 | 0xB1 => ofHandler (lda c mode)
  | 0xAA => .next (tax c)
  | 0xE8 => .next (inx c)
  | 0x00 => .halt c
  | 0xD8 => .next { c with status := removeFlag c.status DECIMAL_MODE }
  | 0x58 => .next { c with status := removeFlag c.status INTERRUPT_DISABLE }
  | 0xB8 => .next { c with status := removeFlag c.status OVERFLOW }
  | 0x18 => .next (clear_carry_flag c)
  | 0x38 => .next (set_carry_flag c)
  | 0x78 => .next { c with status := insertFlag c.status INTERRUPT_DISABLE }
  | 0xF8 => .next { c with status := insertFlag c.status DECIMAL_MODE }
  | 0x48 => .next (stack_push c c.reg_a)
  | 0x68 => .next (pla c)
  | 0x08 => .next (php c)
  | 0x28 => .next (plp c)
  | 0x69 | 0x65 | 0x75 | 0x6D | 0x7D | 0x79 | 0x61 | 0x71 => ofHandler (adc c mode)
  | 0xE9 | 0xE5 | 0xF5 | 0xED | 0xFD | 0xF9 | 0xE1 | 0xF1 => ofHandler (sbc c mode)
  | 0x29 | 0x25 | 0x35 | 0x2D | 0x3D | 0x39 | 0x21 | 0x31 => ofHandler (andIns c mode)
  | 0x49 | 0x45 | 0x55 | 0x4D | 0x5D | 0x59 | 0x41 | 0x51 => ofHandler (eor c mode)
  | 0x09 | 0x05 | 0x15 | 0x0D | 0x1D | 0x19 | 0x01 | 0x11 => ofHandler (ora c mode)
  | 0x4A => .next (lsr_accumulator c)
  | 0x46 | 0x56 | 0x4E | 0x5E => ofHandler (lsr c mode)
  | 0x0A => .next (asl_accumulator c)
  | 0x06 | 0x16 | 0x0E | 0x1E => ofHandler (asl c mode)
  | 0x2A => .next (rol_accumulator c)
  | 0x26 | 0x36 | 0x2E | 0x3E => ofHandler (rol c mode)
  | 0x6A => .next (ror_accumulator c)
  | 0x66 | 0x76 | 0x6E | 0x7E => ofHandler (ror c mode)
  | 0xE6 | 0xF6 | 0xEE | 0xFE => ofHandler (inc c mode)
  | 0xC8 => .next (iny c)
  | 0xC6 | 0xD6 | 0xCE | 0xDE => ofHandler (dec c mode)
  | 0xCA => .next (dex c)
  | 0x88 => .next (dey c)
  | 0xC9 | 0xC5 | 0xD5 | 0xCD | 0xDD | 0xD9 | 0xC1 | 0xD1 =>
    ofHandler (compare c mode c.reg_a)
  | 0xC0 | 0xC4 | 0xCC => ofHandler (compare c mode c.reg_y)
  | 0xE0 | 0xE4 | 0xEC => ofHandler (compare c mode c.reg_x)
  | 0x4C => .next { c with pc := mem_read_u16 c c.pc }
  | 0x6C => .next { c with pc := jmp_indirect_target c }
  | 0x20 =>
    let c1 := stack_push_u16 c ((c.pc + 2 - 1) % 65536)
    .next { c1 with pc := mem_read_u16 c1 c1.pc }
  | 0x60 =>
    let (c1, v) := stack_pop_u16 c
    .next { c1 with pc := (v + 1) % 65536 }
  | 0x40 =>
    let (c1, st) := stack_pop c
    let c2 := { c1 with status := insertFlag (removeFlag st BREAK) BREAK2 }
    let (c3, v) := stack_pop_u16 c2
    .next { c3 with pc := v }
  | 0xD0 => .next (branch c (!containsFlag c.status ZERO))
  | 0x70 => .next (branch c (containsFlag c.status OVERFLOW))
  | 0x50 => .next (branch c (!containsFlag c.status OVERFLOW))
  | 0x10 => .next (branch c (!containsFlag c.status NEGATIVE))
  | 0x30 => .next (branch c (containsFlag c.status NEGATIVE))
  | 0xF0 => .next (branch c (containsFlag c.status ZERO))
  | 0xB0 => .next (branch c (containsFlag c.status CARRY))
  | 0x90 => .next (branch c (!containsFlag c.status CARRY))
  | 0x24 | 0x2C => ofHandler (bit c mode)
  | 0x85 | 0x95 | 0x8D | 0x9D | 0x99 | 0x81 | 0x91 => ofHandler (sta c mode)
  | 0x86 | 0x96 | 0x8E => ofHandler (stx c mode)
  | 0x84 | 0x94 | 0x8C => ofHandler (sty c mode)
  | 0xA2 | 0xA6 | 0xB6 | 0xAE | 0xBE => ofHandler (ldx c mode)
  | 0xA0 | 0xA4 | 0xB4 | 0xAC | 0xBC => ofHandler (ldy c mode)
  | 0xEA => .next c
  | 0xA8 => .next (update_zero_and_negative_flags { c with reg_y := c.reg_a } c.reg_a)
  | 0xBA => .next (update_zero_and_negative_flags { c with reg_x := c.sp } c.sp)
  | 0x8A => .next (update_zero_and_negative_flags { c with reg_a := c.reg_x } c.reg_x)
  | 0x9A => .next { c with sp := c.reg_x }
  | 0x98 => .next (update_zero_and_negative_flags { c with reg_a := c.reg_y } c.reg_y)
  | _ => .fatal .notImplemented

/-- One iteration of the loop in `run_with_callback`: fetch the opcode byte
at `pc`, increment `pc`, look up the descriptor (a missing opcode is the
fatal "unrecognized opcode" condition), dispatch, then advance `pc` by
`len - 1` exactly when the handler left `pc` at the value captured right
after the fetch. -/
def step (c : CPU) : StepResult :=
  let code := mem_read c c.pc
  let c1 := { c with pc := (c.pc + 1) % 65536 }
  let pc_state := c1.pc
  match OPCODES_MAP code with
  | none => .fatal (.unrecognizedOpcode code)
  | some op =>
    match dispatch code op.mode c1 with
    | .next c2 =>
      if c2.pc = pc_state then .next { c2 with pc := (c2.pc + (op.len - 1)) % 65536 }
      else .next c2
    | r => r

inductive RunResult where
  | halted (c : CPU)
  | fatal (e : CpuError)
  | outOfFuel (c : CPU)

/-- The loop of `run_with_callback`, with explicit fuel. -/
def run : Nat → CPU → RunResult
  | 0, c => .outOfFuel c
  | fuel + 1, c =>
    match step c with
    | .next c1 => run fuel c1
    | .halt c1 => .halted c1
    | .fatal e => .fatal e

/-! ### Load / reset / run harness -/

/-- `CPU::new`. -/
def CPU.new : CPU :=
  { reg_a := 0, reg_x := 0, reg_y := 0, status := 0x24, pc := 0, sp := STACK_RESET,
                memory := fun _ => 0 }

def writeBytes : (Nat → Nat) → Nat → List Nat → (Nat → Nat)
  | m, _, [] => m
  | m, base, b :: bs => writeBytes (fun a => if a = base then b else m a) (base + 1) bs

/-- `load`: copy the program to 0x8000 and write the reset vector. -/
def load (c : CPU) (program : List Nat) : CPU :=
  mem_write_u16 { c with memory := writeBytes c.memory 0x8000 program } 0xFFFC 0x8000

/-- `reset`: zero the registers, reset `sp` and `status`, read `pc` from
the reset vector. -/
def reset (c : CPU) : CPU :=
  { c with reg_a := 0, reg_x := 0, reg_y := 0, sp := STACK_RESET, status := 0x24,
           pc := mem_read_u16 c 0xFFFC }

/-- `load_and_run`: zero the memory, load, reset, run. -/
def load_and_run (c : CPU) (program : List Nat) (fuel : Nat) : RunResult :=
  run fuel (reset (load { c with memory := fun _ => 0 } program))

/-! ### Projections of a run's outcome -/

def haltedA : RunResult → Option Nat
  | .halted c => some c.reg_a
  | _ => none

def haltedStatus : RunResult → Option Nat
  | .halted c => some c.status
  | _ => none

/-! ### Theorems -/

lemma testBit_ff (k : Nat) : Nat.testBit 0xFF k = decide (k < 8) := by
  have h : (0xFF : Nat) = 2 ^ 8 - 1 := by norm_num
  rw [h, Nat.testBit_two_pow_sub_one]

lemma recompose_bytes (v : Nat) : ((v >>> 8) <<< 8) ||| (v &&& 0xFF) = v := by
  apply Nat.eq_of_testBit_eq
  intro j
  rw [Nat.testBit_or, Nat.testBit_shiftLeft, Nat.testBit_shiftRight, Nat.testBit_and,
    testBit_ff]
  by_cases hj : 8 ≤ j
  · have h8 : 8 + (j - 8) = j := by omega
    simp [hj, h8, show ¬j < 8 by omega]
  · simp [hj, show j < 8 by omega]

/-- C8: writing a 16-bit value little-endian with `mem_write_u16` and
reading it back with `mem_read_u16` at the same valid address returns the
original value. -/
theorem write16_read16_roundtrip (c : CPU) (a v : Nat) (ha : a ≤ 0xFFFD)
    (hv : v ≤ 0xFFFF) :
    mem_read_u16 (mem_write_u16 c a v) a = v := by
  have hne : a ≠ a + 1 := by omega
  simp only [mem_write_u16, mem_read_u16, mem_write, mem_read]
  simp only [if_pos rfl, if_neg hne]
  exact recompose_bytes v

/-- C8 witness: the round-trip at address 0x1000 for the value 0xBEEF. -/
theorem write16_read16_roundtrip_witness :
    (0x1000 ≤ 0xFFFD ∧ 0xBEEF ≤ 0xFFFF) ∧
      mem_read_u16 (mem_write_u16 CPU.new 0x1000 0xBEEF) 0x1000 = 0xBEEF :=
  ⟨by decide, write16_read16_roundtrip CPU.new 0x1000 0xBEEF (by decide) (by decide)⟩

/-- The concrete state exhibiting the IndirectX byte order: `pc = 0`,
`X = 0x04`, the zero-page pointer byte is `0x20` (so the slot is `0x24`),
and the slot holds `0x34` at `0x24` and `0x12` at `0x25`. -/
def indXCpu : CPU :=
  { CPU.new with reg_x := 0x04,
                 memory := fun a =>
                   if a = 0 then 0x20
                   else if a = 0x24 then 0x34
                   else if a = 0x25 then 0x12 else 0 }

/-- C2: evaluating `get_operand_address` in mode IndirectX at the state
above. The code reads the byte at the zero-page slot as the HIGH byte and
the byte at the next slot as the LOW byte, producing 0x3412 — not the
little-endian 0x1234 that the spec's `read16` contract (low byte first)
prescribes. -/
theorem get_operand_address_indirect_x_swapped :
    get_operand_address indXCpu .IndirectX = some 0x3412 ∧
      get_operand_address indXCpu .IndirectX ≠ some 0x1234 := by
  constructor
  · decide
  · decide

lemma containsFlag_insert_self (st m i : Nat) (hm : m = 2 ^ i) :
    containsFlag (insertFlag st m) m = true := by
  rw [containsFlag_pow _ _ _ hm, testBit_insertFlag, hm, Nat.testBit_two_pow_self,
    Bool.or_true]

lemma containsFlag_remove_self (st m i : Nat) (hm : m = 2 ^ i) (hi : i < 8) :
    containsFlag (removeFlag st m) m = false := by
  rw [containsFlag_pow _ _ _ hm, testBit_removeFlag, Nat.testBit_xor, testBit_ff, hm,
    Nat.testBit_two_pow_self]
  simp [hi]

lemma containsFlag_insert_other (st g m i : Nat) (hm : m = 2 ^ i)
    (hg : g.testBit i = false) :
    containsFlag (insertFlag st g) m = containsFlag st m := by
  rw [containsFlag_pow _ _ _ hm, containsFlag_pow _ _ _ hm, testBit_insertFlag, hg,
    Bool.or_false]

lemma containsFlag_remove_other (st g m i : Nat) (hm : m = 2 ^ i)
    (hg : (0xFF ^^^ g).testBit i = true) :
    containsFlag (removeFlag st g) m = containsFlag st m := by
  rw [containsFlag_pow _ _ _ hm, containsFlag_pow _ _ _ hm, testBit_removeFlag, hg,
    Bool.and_true]

lemma cfCinsC (st : Nat) : containsFlag (insertFlag st CARRY) CARRY = true :=
  containsFlag_insert_self st CARRY 0 (by decide)

lemma cfCremC (st : Nat) : containsFlag (removeFlag st CARRY) CARRY = false :=
  containsFlag_remove_self st CARRY 0 (by decide) (by decide)

lemma cfZinsZ (st : Nat) : containsFlag (insertFlag st ZERO) ZERO = true :=
  containsFlag_insert_self st ZERO 1 (by decide)

lemma cfZremZ (st : Nat) : containsFlag (removeFlag st ZERO) ZERO = false :=
  containsFlag_remove_self st ZERO 1 (by decide) (by decide)

lemma cfOinsO (st : Nat) : containsFlag (insertFlag st OVERFLOW) OVERFLOW = true :=
  containsFlag_insert_self st OVERFLOW 6 (by decide)

lemma cfOremO (st : Nat) : containsFlag (removeFlag st OVERFLOW) OVERFLOW = false :=
  containsFlag_remove_self st OVERFLOW 6 (by decide) (by decide)

lemma cfNinsN (st : Nat) : containsFlag (insertFlag st NEGATIVE) NEGATIVE = true :=
  containsFlag_insert_self st NEGATIVE 7 (by decide)

lemma cfNremN (st : Nat) : containsFlag (removeFlag st NEGATIVE) NEGATIVE = false :=
  containsFlag_remove_self st NEGATIVE 7 (by decide) (by decide)

lemma cfCinsO (st : Nat) :
    containsFlag (insertFlag st OVERFLOW) CARRY = containsFlag st CARRY :=
  containsFlag_insert_other st OVERFLOW CARRY 0 (by decide) (by decide)

lemma cfCremO (st : Nat) :
    containsFlag (removeFlag st OVERFLOW) CARRY = containsFlag st CARRY :=
  containsFlag_remove_other st OVERFLOW CARRY 0 (by decide) (by decide)

lemma cfCinsZ (st : Nat) :
    containsFlag (insertFlag st ZERO) CARRY = containsFlag st CARRY :=
  containsFlag_insert_other st ZERO CARRY 0 (by decide) (by decide)

lemma cfCremZ (st : Nat) :
    containsFlag (removeFlag st ZERO) CARRY = containsFlag st CARRY :=
  containsFlag_remove_other st ZERO CARRY 0 (by decide) (by decide)

lemma cfCinsN (st : Nat) :
    containsFlag (insertFlag st NEGATIVE) CARRY = containsFlag st CARRY :=
  containsFlag_insert_other st NEGATIVE CARRY 0 (by decide) (by decide)

lemma cfCremN (st : Nat) :
    containsFlag (removeFlag st NEGATIVE) CARRY = containsFlag st CARRY :=
  containsFlag_remove_other st NEGATIVE CARRY 0 (by decide) (by decide)

lemma cfOinsZ (st : Nat) :
    containsFlag (insertFlag st ZERO) OVERFLOW = containsFlag st OVERFLOW :=
  containsFlag_insert_other st ZERO OVERFLOW 6 (by decide) (by decide)

lemma cfOremZ (st : Nat) :
    containsFlag (removeFlag st ZERO) OVERFLOW = containsFlag st OVERFLOW :=
  containsFlag_remove_other st ZERO OVERFLOW 6 (by decide) (by decide)

lemma cfOinsN (st : Nat) :
    containsFlag (insertFlag st NEGATIVE) OVERFLOW = containsFlag st OVERFLOW :=
  containsFlag_insert_other st NEGATIVE OVERFLOW 6 (by decide) (by decide)

lemma cfOremN (st : Nat) :
    containsFlag (removeFlag st NEGATIVE) OVERFLOW = containsFlag st OVERFLOW :=
  containsFlag_remove_other st NEGATIVE OVERFLOW 6 (by decide) (by decide)

lemma cfZinsN (st : Nat) :
    containsFlag (insertFlag st NEGATIVE) ZERO = containsFlag st ZERO :=
  containsFlag_insert_other st NEGATIVE ZERO 1 (by decide) (by decide)

lemma cfZremN (st : Nat) :
    containsFlag (removeFlag st NEGATIVE) ZERO = containsFlag st ZERO :=
  containsFlag_remove_other st NEGATIVE ZERO 1 (by decide) (by decide)

/-- C7: the `update_zero_and_negative_flags` postcondition — after updating
from a result byte `v`, Zero holds iff `v = 0` and Negative holds iff bit 7
of `v` is set; `set_register_a`, the shared path of the accumulator-writing
instructions, routes its result through exactly this update. -/
theorem zero_negative_flag_invariant (c : CPU) (v : Nat) :
    (containsFlag (update_zero_and_negative_flags c v).status ZERO = true ↔ v = 0) ∧
      (containsFlag (update_zero_and_negative_flags c v).status NEGATIVE = true ↔
        v.testBit 7 = true) ∧
      set_register_a c v = update_zero_and_negative_flags { c with reg_a := v } v := by
  refine ⟨?_, ?_, rfl⟩
  · unfold update_zero_and_negative_flags
    by_cases h0 : v = 0 <;> by_cases h7 : v &&& 0x80 ≠ 0 <;>
      simp [h0, h7, cfZinsZ, cfZremZ, cfZinsN, cfZremN]
  · unfold update_zero_and_negative_flags
    rw [← and_80_ne_zero]
    by_cases h0 : v = 0 <;> by_cases h7 : v &&& 0x80 ≠ 0 <;>
      simp [h0, h7, cfNinsN, cfNremN]

/-- The widened sum `reg_a + data + carry_in` of `add_to_register_a`. -/
def adcSum (c : CPU) (d : Nat) : Nat :=
  c.reg_a + d + (if containsFlag c.status CARRY then 1 else 0)

/-- C1: `add_to_register_a` (the ADC core) stores `(a + d + carry_in) % 256`
into the accumulator, sets Carry iff the widened sum exceeds 0xFF, sets
Overflow iff `(d ^ result) & (result ^ a) & 0x80` is nonzero, and updates
Zero/Negative from the result byte. -/
theorem adc_spec (c : CPU) (d : Nat) (ha : c.reg_a ≤ 0xFF) (hd : d ≤ 0xFF) :
    (add_to_register_a c d).reg_a = adcSum c d % 256 ∧
      (containsFlag (add_to_register_a c d).status CARRY = true ↔ 0xFF < adcSum c d) ∧
      (containsFlag (add_to_register_a c d).status OVERFLOW = true ↔
        (d ^^^ adcSum c d % 256) &&& (adcSum c d % 256 ^^^ c.reg_a) &&& 0x80 ≠ 0) ∧
      (containsFlag (add_to_register_a c d).status ZERO = true ↔ adcSum c d % 256 = 0) ∧
      (containsFlag (add_to_register_a c d).status NEGATIVE = true ↔
        (adcSum c d % 256).testBit 7 = true) := by
  simp only [add_to_register_a, set_register_a, update_zero_and_negative_flags, adcSum]
  simp only [← and_80_ne_zero]
  generalize c.reg_a + d + (if containsFlag c.status CARRY = true then 1 else 0) = s
  split_ifs with h1 h2 h3 h4 <;>
    simp_all [cfCinsC, cfCremC, cfCinsO, cfCremO, cfCinsZ, cfCremZ,
      cfCinsN, cfCremN, cfOinsO, cfOremO, cfOinsZ, cfOremZ, cfOinsN, cfOremN,
      cfZinsZ, cfZremZ, cfZinsN, cfZremN, cfNinsN, cfNremN]

/-- A freshly constructed CPU whose accumulator holds 0x7F (Carry is clear
in the reset status 0x24). -/
def adcCpu : CPU := { CPU.new with reg_a := 0x7F }

/-- C1 witness: accumulator 0x7F plus operand 0x01 with Carry clear gives
result 0x80 with Carry clear, Overflow set, Negative set, Zero clear. -/
theorem adc_spec_witness :
    (adcCpu.reg_a ≤ 0xFF ∧ (0x01 : Nat) ≤ 0xFF) ∧
      (add_to_register_a adcCpu 0x01).reg_a = 0x80 ∧
      containsFlag (add_to_register_a adcCpu 0x01).status CARRY = false ∧
      containsFlag (add_to_register_a adcCpu 0x01).status OVERFLOW = true ∧
      containsFlag (add_to_register_a adcCpu 0x01).status NEGATIVE = true ∧
      containsFlag (add_to_register_a adcCpu 0x01).status ZERO = false := by
  have h := adc_spec adcCpu 0x01 (by decide) (by decide)
  obtain ⟨hra, hc, ho, hz, hn⟩ := h
  refine ⟨by decide, ?_, ?_, ?_, ?_, ?_⟩
  · rw [hra]
    decide
  · rw [Bool.eq_false_iff]
    intro hb
    exact absurd (hc.mp hb) (by decide)
  · exact ho.mpr (by decide)
  · exact hn.mpr (by decide)
  · rw [Bool.eq_false_iff]
    intro hb
    exact absurd (hz.mp hb) (by decide)

lemma and_80_eq_zero (v : Nat) : (v &&& 0x80 = 0) ↔ v.testBit 7 = false := by
  have h : (0x80 : Nat) = 2 ^ 7 := by norm_num
  rw [h, Nat.and_two_pow]
  cases hb : v.testBit 7 <;> simp [hb]

/-- C5: the `compare` core (shared by CMP/CPX/CPY), here resolved in
Immediate mode so the operand byte is the byte at `pc`: Carry is set iff
the operand is ≤ the compared register, Zero/Negative come from the
wrapping difference `(r - d) mod 256`, and the registers are unchanged. -/
theorem compare_spec (c : CPU) (r : Nat) (hr : r ≤ 0xFF) (hd : c.memory c.pc ≤ 0xFF) :
    ((compare c .Immediate r).map fun c1 => containsFlag c1.status CARRY) =
        some (decide (c.memory c.pc ≤ r)) ∧
      ((compare c .Immediate r).map fun c1 => containsFlag c1.status ZERO) =
        some (decide ((r + 256 - c.memory c.pc) % 256 = 0)) ∧
      ((compare c .Immediate r).map fun c1 => containsFlag c1.status NEGATIVE) =
        some (((r + 256 - c.memory c.pc) % 256).testBit 7) ∧
      ((compare c .Immediate r).map fun c1 => (c1.reg_a, c1.reg_x, c1.reg_y)) =
        some (c.reg_a, c.reg_x, c.reg_y) := by
  have hdm : c.memory c.pc % 256 = c.memory c.pc := Nat.mod_eq_of_lt (by omega)
  simp only [compare, get_operand_address, Option.map, update_zero_and_negative_flags,
    mem_read, wrapping_sub8, hdm]
  split_ifs with h1 h2 h3 <;>
    simp_all [cfCinsC, cfCremC, cfCinsZ, cfCremZ, cfCinsN, cfCremN,
      cfZinsZ, cfZremZ, cfZinsN, cfZremN, cfNinsN, cfNremN, ← and_80_ne_zero,
      ← and_80_eq_zero]

/-- The CPU whose operand byte (at `pc`) is 5. -/
def cmpCpu : CPU := { CPU.new with memory := fun _ => 5 }

/-- C5 witness: register 5 versus operand 5 sets Carry; register 3 versus
operand 5 clears Carry. -/
theorem compare_spec_witness :
    ((5 : Nat) ≤ 0xFF ∧ cmpCpu.memory cmpCpu.pc ≤ 0xFF) ∧
      ((compare cmpCpu .Immediate 5).map fun c1 => containsFlag c1.status CARRY) =
        some true ∧
      ((compare cmpCpu .Immediate 3).map fun c1 => containsFlag c1.status CARRY) =
        some false := by
  refine ⟨by decide, ?_, ?_⟩
  · have h := (compare_spec cmpCpu 5 (by decide) (by decide)).1
    rw [h]
    decide
  · have h := (compare_spec cmpCpu 3 (by decide) (by decide)).1
    rw [h]
    decide

/-- C6: the JMP-indirect target. When the 16-bit pointer at `pc` has low
byte 0xFF, the target's high byte comes from the start of the pointer's own
page (`256 * (p / 256)`) — the 6502 page-boundary bug; otherwise the target
is the ordinary little-endian word at the pointer. -/
theorem jmp_indirect_page_bug (c : CPU) (hb : ∀ a, c.memory a < 256) :
    (mem_read_u16 c c.pc % 256 = 0xFF →
        jmp_indirect_target c =
          256 * c.memory (256 * (mem_read_u16 c c.pc / 256)) +
            c.memory (mem_read_u16 c c.pc)) ∧
      (mem_read_u16 c c.pc % 256 ≠ 0xFF →
        jmp_indirect_target c =
          256 * c.memory (mem_read_u16 c c.pc + 1) + c.memory (mem_read_u16 c c.pc)) := by
  have hp : mem_read_u16 c c.pc < 65536 := by
    unfold mem_read_u16 mem_read
    rw [shiftLeft8_or_eq _ _ (hb c.pc)]
    have h1 := hb (c.pc + 1)
    have h2 := hb c.pc
    omega
  constructor
  · intro hmod
    have hcond : mem_read_u16 c c.pc &&& 0x00FF = 0x00FF := by
      rw [and_ff_eq_mod]
      exact hmod
    simp only [jmp_indirect_target]
    rw [if_pos hcond, and_ff00_eq _ hp]
    unfold mem_read
    rw [shiftLeft8_or_eq _ _ (hb _)]
  · intro hmod
    have hcond : ¬ (mem_read_u16 c c.pc &&& 0x00FF = 0x00FF) := by
      rw [and_ff_eq_mod]
      exact hmod
    simp only [jmp_indirect_target]
    rw [if_neg hcond]
    unfold mem_read_u16 mem_read
    rw [shiftLeft8_or_eq _ _ (hb _)]

/-- Memory image for the page-boundary example: pointer 0x30FF at `pc = 0`,
`0x80` at 0x30FF and `0x50` at 0x3000. -/
def jmpMem (a : Nat) : Nat :=
  if a = 0 then 0xFF
  else if a = 1 then 0x30
  else if a = 0x30FF then 0x80
  else if a = 0x3000 then 0x50 else 0

def jmpCpu : CPU := { CPU.new with memory := jmpMem }

/-- C6 witness: with pointer 0x30FF, memory[0x30FF] = 0x80 and
memory[0x3000] = 0x50, the jump target is 0x5080, not 0x5180. -/
theorem jmp_indirect_page_bug_witness :
    (∀ a, jmpCpu.memory a < 256) ∧ mem_read_u16 jmpCpu jmpCpu.pc % 256 = 0xFF ∧
      jmp_indirect_target jmpCpu = 0x5080 := by
  have hb : ∀ a, jmpCpu.memory a < 256 := by
    intro a
    show jmpMem a < 256
    unfold jmpMem
    split_ifs <;> norm_num
  refine ⟨hb, by decide, ?_⟩
  have h := (jmp_indirect_page_bug jmpCpu hb).1 (by decide)
  exact h.trans (by decide)

/-- C10: `stack_push` writes the byte to `0x0010 + sp` (the stack region is
0x0010 – 0x010F, from the non-hardware base constant `STACK = 0x0010`),
then decrements `sp` with 8-bit wraparound; an immediately following
`stack_pop` returns the byte and restores `sp`. -/
theorem stack_push_pop_roundtrip (c : CPU) (b : Nat) (hsp : c.sp < 256) :
    (stack_push c b).memory (0x0010 + c.sp) = b ∧
      (stack_push c b).sp = (c.sp + 255) % 256 ∧
      0x0010 + c.sp ≤ 0x010F ∧
      (stack_pop (stack_push c b)).2 = b ∧
      (stack_pop (stack_push c b)).1.sp = c.sp := by
  have hsp1 : ((c.sp + 256 - 1 % 256) % 256 + 1) % 256 = c.sp := by omega
  simp only [stack_push, stack_pop, mem_write, mem_read, wrapping_add8, wrapping_sub8,
    STACK]
  refine ⟨by simp, by omega, by omega, ?_, ?_⟩
  · simp only [hsp1]
    simp
  · simp only [hsp1]

/-- C10 witness: pushing 0xAB on a fresh CPU (`sp = 0xFD`) stores it at
0x010D and popping returns it with `sp` restored. -/
theorem stack_push_pop_roundtrip_witness :
    CPU.new.sp < 256 ∧
      (stack_push CPU.new 0xAB).memory (0x0010 + CPU.new.sp) = 0xAB ∧
      (stack_push CPU.new 0xAB).sp = (CPU.new.sp + 255) % 256 ∧
      0x0010 + CPU.new.sp ≤ 0x010F ∧
      (stack_pop (stack_push CPU.new 0xAB)).2 = 0xAB ∧
      (stack_pop (stack_push CPU.new 0xAB)).1.sp = CPU.new.sp := by
  have h := stack_push_pop_roundtrip CPU.new 0xAB (by decide)
  exact ⟨by decide, h.1, h.2.1, h.2.2.1, h.2.2.2.1, h.2.2.2.2⟩

/-- C4: program-counter bookkeeping in `step`. The opcode is fetched at
`pc` and `pc` is incremented by 1 before dispatch; afterwards the generic
advance by `len - 1` happens exactly when the handler left `pc` equal to
the value captured right after the fetch, and is suppressed when the
handler set `pc` itself. -/
theorem pc_bookkeeping (c : CPU) (op : OpCode) (c2 : CPU)
    (hop : OPCODES_MAP (mem_read c c.pc) = some op)
    (hd : dispatch (mem_read c c.pc) op.mode { c with pc := (c.pc + 1) % 65536 } =
      .next c2) :
    (c2.pc = (c.pc + 1) % 65536 →
        step c = .next { c2 with pc := (c2.pc + (op.len - 1)) % 65536 }) ∧
      (c2.pc ≠ (c.pc + 1) % 65536 → step c = .next c2) := by
  simp only [step, hop, hd]
  constructor
  · intro h
    rw [if_pos h]
  · intro h
    rw [if_neg h]

/-- A CPU whose memory is all NOP (0xEA) bytes. -/
def nopCpu : CPU := { CPU.new with memory := fun _ => 0xEA }

/-- The state NOP's handler returns: the fetch-incremented state itself. -/
def nopC2 : CPU := { nopCpu with pc := (nopCpu.pc + 1) % 65536 }

/-- C4 witness: NOP does not touch `pc`, so the generic advance by
`len - 1 = 0` applies. -/
theorem pc_bookkeeping_witness :
    OPCODES_MAP (mem_read nopCpu nopCpu.pc) = some ⟨1, .NoneAddressing⟩ ∧
      dispatch (mem_read nopCpu nopCpu.pc) AddressingMode.NoneAddressing
          { nopCpu with pc := (nopCpu.pc + 1) % 65536 } = .next nopC2 ∧
      nopC2.pc = (nopCpu.pc + 1) % 65536 ∧
      step nopCpu = .next { nopC2 with pc := (nopC2.pc + (1 - 1)) % 65536 } :=
  ⟨by decide, rfl, rfl,
    (pc_bookkeeping nopCpu ⟨1, .NoneAddressing⟩ nopC2 (by decide) rfl).1 rfl⟩

/-- C9: a fetched opcode byte with no entry in the metadata map terminates
the loop immediately with the fatal "unrecognized opcode" error, for any
remaining fuel — it is never a no-op and execution never continues. -/
theorem unrecognized_opcode_fatal (fuel : Nat) (c : CPU)
    (h : OPCODES_MAP (mem_read c c.pc) = none) :
    run (fuel + 1) c = .fatal (.unrecognizedOpcode (mem_read c c.pc)) := by
  simp only [run, step, h]

/-- A CPU about to fetch 0x02, a byte with no descriptor. -/
def badOpCpu : CPU := { CPU.new with memory := fun _ => 0x02 }

/-- C9 witness: fetching 0x02 fails fatally. -/
theorem unrecognized_opcode_fatal_witness :
    OPCODES_MAP (mem_read badOpCpu badOpCpu.pc) = none ∧
      run (4 + 1) badOpCpu = .fatal (.unrecognizedOpcode (mem_read badOpCpu badOpCpu.pc)) :=
  ⟨by decide, unrecognized_opcode_fatal 4 badOpCpu (by decide)⟩

/-- C3: `load_and_run` on `[0xA9, 0x05, 0x00]` (LDA #5, BRK) from a fresh
CPU halts (within 3 loop iterations) with accumulator 0x05 and both the
Zero and Negative flags clear. -/
theorem load_and_run_lda5 :
    haltedA (load_and_run CPU.new [0xA9, 0x05, 0x00] 3) = some 0x05 ∧
      ((haltedStatus (load_and_run CPU.new [0xA9, 0x05, 0x00] 3)).map fun st =>
        (containsFlag st ZERO, containsFlag st NEGATIVE)) = some (false, false) := by
  constructor
  · decide
  · decide
